import Mathlib

/-!
Shallow embedding of the UTF-8 codec in `src/listings/utf8-encoder.cpp` /
`src/listings/utf8-decoder.cpp` (declarations in `utf8-encoder.hpp` and
`sections/41-utf8-parser.hpp`).

Bytes (`unsigned char`) and code points (`unsigned int`) are modelled as `Nat`:
every byte is below 2^8 and every value the decoder builds is below 2^22, so no
C++ arithmetic in these listings can wrap and the embedding needs no explicit
modulus.  The iterator pair `(iter, end)` of `next_codepoint` is modelled as
the list of bytes remaining between the cursor and the buffer end: advancing
the iterator drops elements from the front, and "the cursor is at the buffer
end" is the empty list.
-/

namespace Textenc

/-- `B2_MASK` from `utf8-encoder.hpp` (0001 1111). -/
def B2_MASK : Nat := 0x1F

/-- `B3_MASK` from `utf8-encoder.hpp` (0000 1111). -/
def B3_MASK : Nat := 0x0F

/-- `B4_MASK` from `utf8-encoder.hpp` (0000 0111). -/
def B4_MASK : Nat := 0x07

/-- `MB_MASK` from `utf8-encoder.hpp` (0011 1111). -/
def MB_MASK : Nat := 0x3F

/-- Embedding of `next_codepoint` (`src/listings/utf8-decoder.cpp`, lines
8-66).  The input list is the bytes from the cursor to the buffer end; the
returned list is the bytes from the advanced cursor to the buffer end.  The
C++ returns the empty `std::optional` both at clean end-of-input (line 11)
and whenever the buffer ends mid-sequence (lines 24, 38, 53); in every such
branch the iterator has been advanced to `end`, i.e. the returned list is
empty.  No branch validates lead ranges beyond the three `<` comparisons, and
nothing checks continuation bytes, overlong forms, surrogates, or the
0x10FFFF bound. -/
def next_codepoint : List Nat → Option Nat × List Nat
  | [] => (none, [])
  | b0 :: rest =>
    if b0 < 128 then
      (some b0, rest)
    else
      match rest with
      | [] => (none, [])
      | b1 :: rest1 =>
        if b0 < 0xE0 then
          (some ((b0 &&& B2_MASK) <<< 6 ||| (b1 &&& MB_MASK)), rest1)
        else
          match rest1 with
          | [] => (none, [])
          | b2 :: rest2 =>
            if b0 < 0xF0 then
              (some ((b0 &&& B3_MASK) <<< 12 ||| (b1 &&& MB_MASK) <<< 6 |||
                     (b2 &&& MB_MASK)), rest2)
            else
              match rest2 with
              | [] => (none, [])
              | b3 :: rest3 =>
                (some ((b0 &&& B4_MASK) <<< 18 ||| (b1 &&& MB_MASK) <<< 12 |||
                       (b2 &&& MB_MASK) <<< 6 ||| (b3 &&& MB_MASK)), rest3)

/-- The `while (iter != end)` loop of `decode`
(`src/listings/utf8-decoder.cpp`, lines 76-79), with an explicit fuel
parameter so that the recursion is structural.  `decode` below always supplies
`fuel = ` buffer length, which can never run out because `next_codepoint`
consumes at least one byte per iteration (`next_codepoint_consumes` below);
`decodeLoop_fuel_irrelevant` below proves the chosen fuel value does not
matter.  The C++ loop body dereferences the returned `std::optional` without
checking it (`codepoints.push_back(*cp)`, line 78); when `next_codepoint`
returns the empty optional with bytes still remaining, that dereference is
undefined behavior, which the embedding makes explicit by returning `none`
for the whole call. -/
def decodeLoop : Nat → List Nat → Option (List Nat)
  | _, [] => some []
  | 0, _ :: _ => none
  | fuel + 1, b0 :: rest0 =>
    match next_codepoint (b0 :: rest0) with
    | (none, _) => none
    | (some cp, rest) => (decodeLoop fuel rest).map (fun cps => cp :: cps)

/-- Embedding of `decode` (`src/listings/utf8-decoder.cpp`, lines 69-82):
run the decoding loop over the whole buffer, collecting the code points.
`some cps` is a run in which every optional dereference was defined; `none`
marks a run that hits the undefined dereference of an empty optional. -/
def decode (l : List Nat) : Option (List Nat) :=
  decodeLoop l.length l

/-- Embedding of `encode` (`src/listings/utf8-encoder.cpp`, lines 5-9).  Only
the 1-byte branch exists in the source; for `cp ≥ 128` control reaches the
end of a non-void function, which is undefined behavior, made explicit here
as `none`. -/
def encode (cp : Nat) : Option (List Nat) :=
  if cp < 128 then some [cp] else none

/-- `next_codepoint` consumes at least one byte whenever the cursor is not at
the buffer end: every branch advances the iterator past at least `b0` (the
truncation branches advance it all the way to `end`). -/
theorem next_codepoint_consumes (l : List Nat) (h : l ≠ []) :
    (next_codepoint l).2.length < l.length := by
  match l with
  | [] => exact absurd rfl h
  | b0 :: rest =>
    simp only [next_codepoint]
    split
    · simp
    · match rest with
      | [] => simp
      | b1 :: rest1 =>
        simp only []
        split
        · simp only [List.length_cons]; omega
        · match rest1 with
          | [] => simp
          | b2 :: rest2 =>
            simp only []
            split
            · simp only [List.length_cons]; omega
            · match rest2 with
              | [] => simp
              | b3 :: rest3 => simp only [List.length_cons]; omega

/-- Any fuel value at least the length of the remaining buffer gives the same
result as any other: the fuel-exhaustion branch of `decodeLoop` is
unreachable from `decode`, because each iteration consumes at least one
byte.  This justifies the fuel-based rendering of the C++ `while` loop. -/
theorem decodeLoop_fuel_irrelevant :
    ∀ (f g : Nat) (l : List Nat), l.length ≤ f → l.length ≤ g →
      decodeLoop f l = decodeLoop g l := by
  intro f
  induction f with
  | zero =>
    intro g l hf _
    have : l = [] := List.length_eq_zero.mp (Nat.le_zero.mp hf)
    subst this
    cases g <;> rfl
  | succ f ih =>
    intro g l hf hg
    match l with
    | [] => cases g <;> rfl
    | b0 :: rest0 =>
      match g with
      | 0 => simp at hg
      | g + 1 =>
        simp only [decodeLoop]
        match hc : next_codepoint (b0 :: rest0) with
        | (none, _) => rfl
        | (some cp, rest) =>
          have hlen : rest.length < (b0 :: rest0).length := by
            have h := next_codepoint_consumes (b0 :: rest0) (by simp)
            rw [hc] at h
            exact h
          have hrest : decodeLoop f rest = decodeLoop g rest := by
            apply ih
            · simp only [List.length_cons] at hf hlen ⊢; omega
            · simp only [List.length_cons] at hg hlen ⊢; omega
          simp only [hrest]

/-- Claim C1: the spec asserts `decode(encode(cp)) == [cp]` for every valid
code point, but the source's `encode` implements only the 1-byte branch: for
any `cp ≥ 128` control reaches the end of a non-void function (undefined
behavior, embedded as `none`), so the round trip is impossible there.  This
theorem evaluates the code at the failing input `cp = 0x80` and records that
the round trip does hold on the implemented 1-byte branch. -/
theorem roundtrip_broken_at_128 :
    encode 0x80 = none ∧
    (∀ cp, cp < 128 → encode cp = some [cp] ∧ decode [cp] = some [cp]) := by
  refine ⟨by decide, ?_⟩
  intro cp h
  constructor
  · simp [encode, h]
  · simp [decode, decodeLoop, next_codepoint, h]

/-- Witness for `roundtrip_broken_at_128` at the concrete code point 0x41. -/
theorem roundtrip_broken_at_128_witness :
    encode 0x41 = some [0x41] ∧ decode [0x41] = some [0x41] :=
  roundtrip_broken_at_128.2 0x41 (by decide)

/-- Claim C2: the spec asserts that decoding a truncated multi-byte sequence
such as `[0xE2, 0x82]` fails with `TruncatedSequence`.  The source has no
error values at all: `next_codepoint` signals the truncation with the empty
optional — the very signal used for clean end-of-input — and `decode` then
dereferences that empty optional (undefined behavior, embedded as `none`).
This theorem evaluates the code at the failing input. -/
theorem decode_truncated_euro_undefined :
    next_codepoint [0xE2, 0x82] = (none, []) ∧ decode [0xE2, 0x82] = none := by
  decide

/-- Claim C3, counterexample: the spec asserts that any input whose lead byte
lies in [0x80, 0xBF] makes single-step decode fail with `InvalidLeadByte`;
on the input `[0x80, 0x80]` the source instead succeeds, treating 0x80 as a
2-byte lead and returning code point 0. -/
theorem lead_0x80_accepted : next_codepoint [0x80, 0x80] = (some 0, []) := by
  decide

/-- Claim C3, amended: the source never validates lead bytes.  A lone lead
`≥ 0x80` yields the empty optional (the clean end-of-input signal); a lead in
[0x80, 0xDF] with one following byte is decoded through the 2-byte branch;
a lead `≥ 0xF8` with three following bytes is decoded through the 4-byte
branch.  No `InvalidLeadByte` error exists in the code. -/
theorem no_lead_byte_validation :
    next_codepoint [0x80] = (none, []) ∧
    (∀ b0 b1 : Nat, 128 ≤ b0 → b0 < 0xE0 →
      next_codepoint [b0, b1] =
        (some ((b0 &&& B2_MASK) <<< 6 ||| (b1 &&& MB_MASK)), [])) ∧
    (∀ b0 b1 b2 b3 : Nat, 0xF8 ≤ b0 →
      next_codepoint [b0, b1, b2, b3] =
        (some ((b0 &&& B4_MASK) <<< 18 ||| (b1 &&& MB_MASK) <<< 12 |||
               (b2 &&& MB_MASK) <<< 6 ||| (b3 &&& MB_MASK)), [])) := by
  refine ⟨by decide, ?_, ?_⟩
  · intro b0 b1 h1 h2
    simp [next_codepoint, Nat.not_lt.mpr h1, h2]
  · intro b0 b1 b2 b3 h1
    have h2 : ¬ b0 < 128 := by omega
    have h3 : ¬ b0 < 0xE0 := by omega
    have h4 : ¬ b0 < 0xF0 := by omega
    simp [next_codepoint, h2, h3, h4]

/-- Witness for `no_lead_byte_validation` at the concrete input
`[0x90, 0x85]` (lead in [0x80, 0xBF], decoded as a 2-byte sequence). -/
theorem no_lead_byte_validation_witness :
    next_codepoint [0x90, 0x85] =
      (some ((0x90 &&& B2_MASK) <<< 6 ||| (0x85 &&& MB_MASK)), []) :=
  no_lead_byte_validation.2.1 0x90 0x85 (by decide) (by decide)

/-- Claim C4, counterexample: the spec asserts `decode([0xC0, 0x80])` fails
with `OverlongEncoding` rather than yielding 0; the source succeeds and
yields exactly `[0]`. -/
theorem overlong_zero_accepted : decode [0xC0, 0x80] = some [0] := by decide

/-- Claim C4, amended: the source performs no overlong-encoding validation.
Every 2-byte sequence with lead 0xC0 decodes to `b1 & 0x3F`, a value below
0x80 — hence representable in one byte, i.e. overlong — and is returned as a
successfully decoded code point. -/
theorem no_overlong_validation :
    ∀ b1 : Nat,
      next_codepoint [0xC0, b1] = (some (b1 &&& MB_MASK), []) ∧
      b1 &&& MB_MASK < 0x80 := by
  intro b1
  constructor
  · have h0 : ((0xC0 &&& B2_MASK) <<< 6 : Nat) = 0 := by decide
    simp [next_codepoint, h0, Nat.zero_or]
  · have h : b1 &&& MB_MASK ≤ MB_MASK := Nat.and_le_right
    have hm : MB_MASK < 0x80 := by decide
    omega

/-- Witness for `no_overlong_validation` at the concrete continuation byte
0xAF. -/
theorem no_overlong_validation_witness :
    next_codepoint [0xC0, 0xAF] = (some (0xAF &&& MB_MASK), []) ∧
    0xAF &&& MB_MASK < 0x80 :=
  no_overlong_validation 0xAF

/-- Claim C5, counterexample: the spec asserts that accumulated values above
0x10FFFF fail with `InvalidCodePoint`; the source successfully returns
`decode([0xF4, 0x90, 0x80, 0x80]) = [0x110000]`, which exceeds 0x10FFFF. -/
theorem out_of_range_accepted :
    decode [0xF4, 0x90, 0x80, 0x80] = some [0x110000] := by decide

/-- Claim C5, amended: the source performs no code-point range validation:
a surrogate value (0xD800) and a value above 0x10FFFF (0x1FFFFF) are both
returned as successfully decoded code points; no `InvalidCodePoint` error
exists in the code. -/
theorem no_codepoint_range_validation :
    decode [0xED, 0xA0, 0x80] = some [0xD800] ∧
    decode [0xF7, 0xBF, 0xBF, 0xBF] = some [0x1FFFFF] ∧
    0xD800 ≤ (0xD800 : Nat) ∧ (0xD800 : Nat) ≤ 0xDFFF ∧
    (0x10FFFF : Nat) < 0x1FFFFF := by
  decide

/-- Claim C6, counterexample: the spec asserts that decoding `[0xC2, 0x41]`
fails with `InvalidContinuationByte` because 0x41 is not in [0x80, 0xBF];
the source instead succeeds, masking 0x41 with 0x3F and returning code point
0x81. -/
theorem invalid_continuation_accepted :
    next_codepoint [0xC2, 0x41] = (some 0x81, []) := by decide

/-- Claim C6, amended: the source never validates continuation bytes — each
is masked with `MB_MASK` (0x3F) whatever its top bits are, so a 2-byte
sequence with lead 0xC2 succeeds for every second byte, and
`decode([0xC2, 0x41])` yields `[0x81]`. -/
theorem no_continuation_validation :
    (∀ b1 : Nat,
      next_codepoint [0xC2, b1] =
        (some ((0xC2 &&& B2_MASK) <<< 6 ||| (b1 &&& MB_MASK)), [])) ∧
    decode [0xC2, 0x41] = some [0x81] := by
  constructor
  · intro b1
    simp [next_codepoint]
  · decide

/-- Witness for `no_continuation_validation` at the concrete continuation
byte 0xFF. -/
theorem no_continuation_validation_witness :
    next_codepoint [0xC2, 0xFF] =
      (some ((0xC2 &&& B2_MASK) <<< 6 ||| (0xFF &&& MB_MASK)), []) :=
  no_continuation_validation.1 0xFF

/-- Claim C7: the spec asserts `encode(0x20AC) = [0xE2, 0x82, 0xAC]`, but the
source's `encode` implements only the 1-byte branch; for 0x20AC control
reaches the end of a non-void function (undefined behavior, embedded as
`none`).  This theorem evaluates the code at the failing input. -/
theorem encode_euro_undefined : encode 0x20AC = none := by decide

/-- Claim C8: full-buffer decode yields the specified code points on the two
concrete valid inputs: `[0xE2, 0x82, 0xAC]` decodes to `[0x20AC]` (€) and
`[0xF0, 0x90, 0x8D, 0x88]` decodes to `[0x10348]` (𐍈). -/
theorem decode_euro_and_hwair :
    decode [0xE2, 0x82, 0xAC] = some [0x20AC] ∧
    decode [0xF0, 0x90, 0x8D, 0x88] = some [0x10348] := by decide

/-- Claim C9: every call to `next_codepoint` with the cursor strictly before
the buffer end strictly advances the cursor (strictly fewer bytes remain
afterwards), so the full-buffer decode loop reaches the buffer end after
finitely many steps — `decode` above is total by exactly this bound (see
`decodeLoop_fuel_irrelevant`). -/
theorem next_codepoint_advances :
    ∀ l : List Nat, l ≠ [] → (next_codepoint l).2.length < l.length :=
  fun l h => next_codepoint_consumes l h

/-- Witness for `next_codepoint_advances` at the concrete one-byte buffer
`[0x41]`. -/
theorem next_codepoint_advances_witness :
    (next_codepoint [0x41]).2.length < [0x41].length :=
  next_codepoint_advances [0x41] (by decide)

/-- Claim C10: whenever the lead byte is at least 0x80 but fewer bytes remain
than its length class requires (2 bytes below 0xE0, 3 below 0xF0, 4 from
0xF0 up), `next_codepoint` returns the empty optional with the cursor
advanced exactly to the buffer end — byte-for-byte the same result
`(none, [])` it returns at clean end-of-input (first conjunct), so the
single-step interface cannot distinguish truncation from exhausted input. -/
theorem truncation_indistinguishable_from_end :
    next_codepoint [] = (none, []) ∧
    (∀ b0 : Nat, 128 ≤ b0 → next_codepoint [b0] = (none, [])) ∧
    (∀ b0 b1 : Nat, 0xE0 ≤ b0 → next_codepoint [b0, b1] = (none, [])) ∧
    (∀ b0 b1 b2 : Nat, 0xF0 ≤ b0 → next_codepoint [b0, b1, b2] = (none, [])) := by
  refine ⟨rfl, ?_, ?_, ?_⟩
  · intro b0 h
    simp [next_codepoint, Nat.not_lt.mpr h]
  · intro b0 b1 h
    have h1 : ¬ b0 < 128 := by omega
    have h2 : ¬ b0 < 0xE0 := by omega
    simp [next_codepoint, h1, h2]
  · intro b0 b1 b2 h
    have h1 : ¬ b0 < 128 := by omega
    have h2 : ¬ b0 < 0xE0 := by omega
    have h3 : ¬ b0 < 0xF0 := by omega
    simp [next_codepoint, h1, h2, h3]

/-- Witness for `truncation_indistinguishable_from_end` at the concrete
truncated input `[0xE2, 0x82]` (the € encoding with its final byte
removed). -/
theorem truncation_indistinguishable_witness :
    next_codepoint [0xE2, 0x82] = (none, []) :=
  truncation_indistinguishable_from_end.2.2.1 0xE2 0x82 (by decide)

end Textenc
